import Mathlib

/-!
Shallow embedding of the storefront web service in `src/app.py` (a small
Flask application backed by Azure blob storage and an Azure storage queue),
together with proofs of the specification claims about it.

Modelling conventions:
* Python strings are modelled by Lean `String`/`List Char`, over the ASCII
  fragment (where Python's `str.lower`, `str.strip` and the regex class
  `\d` coincide with the Lean character operations used here).
* The external services (blob store, queue, templating engine, SAS token
  signer) are opaque capabilities: handler functions take the results of
  upstream fetches as explicit `Except` inputs and return, next to the HTTP
  response, the ordered list of externally visible effects (blob GETs and
  queue sends) they perform.
* Wall-clock time is a `Nat` of seconds since the epoch, passed explicitly
  (`datetime.utcnow()` in the source).
-/

namespace Storefront

/-- One product record of `product.json` (`src/app.py` uses dict access:
`p["id"]`, `p.get("name", "")`, `p.get("category", "")`,
`p.get("price", "")`, `p.get("image_url", "")`), so each field may be
absent; an absent field accessed with `[]` raises `KeyError`. -/
structure Product where
  id? : Option Int
  name? : Option String
  category? : Option String
  price? : Option String
  image_url? : Option String
deriving DecidableEq

/-- The payload object of an order queue message, `msg_payload` in
`enqueue_order` (`src/app.py` lines 104-108); the wire form is its JSON
serialization. -/
structure OrderMsg where
  id : Int
  name : String
  price : Nat
deriving DecidableEq

/-- Process-wide configuration read from the environment at startup
(`src/app.py` lines 51-57). -/
structure Config where
  account_name : String
  account_key : String
  html_container : String
  product_container : String
  image_container : String
  queue_name : String
  queue_conn_str : String
deriving DecidableEq

/-! ### Price normalization (`enqueue_order`, src/app.py lines 100-102) -/

/-- Model of the regex substitution `re.sub(r"[^\d]", "", str(raw_price))`:
keep exactly the decimal digit characters. (Python's `\d` also matches
non-ASCII Unicode decimal digits; the embedding covers the ASCII fragment,
where `\d` is exactly `0`-`9`.) -/
def strip_non_digits (s : String) : List Char :=
  s.data.filter Char.isDigit

/-- Model of Python `int(...)` applied to a non-empty all-digit string:
the base-10 value of the digit characters. -/
def pyInt (l : List Char) : Nat :=
  l.foldl (fun a c => 10 * a + (c.toNat - 48)) 0

/-- `price_int = int(digits_only) if digits_only else 0`
(src/app.py lines 100-102): strip the non-digits from the string form of
the price and parse what remains, defaulting to `0`. -/
def normalize_price (s : String) : Nat :=
  let d := strip_non_digits s
  if d.isEmpty then 0 else pyInt d

/-- The specification's wording of price normalization, formalised
independently of the source embedding: discard every character that is not
an ASCII digit and read the remaining digit string as a base-10 natural
number (most significant digit first), empty string giving zero. -/
def specNormalizePrice (s : String) : Nat :=
  Nat.ofDigits 10 (((s.data.filter Char.isDigit).map (fun c => c.toNat - 48)).reverse)

lemma pyInt_foldl_eq (l : List Char) (a : Nat) :
    l.foldl (fun x c => 10 * x + (c.toNat - 48)) a
      = Nat.ofDigits 10 ((l.map (fun c => c.toNat - 48)).reverse) + a * 10 ^ l.length := by
  induction l generalizing a with
  | nil => simp [Nat.ofDigits]
  | cons c t ih =>
      simp only [List.foldl_cons, List.map_cons, List.reverse_cons, List.length_cons]
      rw [ih]
      rw [Nat.ofDigits_append]
      simp [Nat.ofDigits_singleton]
      ring

lemma pyInt_eq_ofDigits (l : List Char) :
    pyInt l = Nat.ofDigits 10 ((l.map (fun c => c.toNat - 48)).reverse) := by
  unfold pyInt
  rw [pyInt_foldl_eq]
  simp

/-! ### Signed URL generation (`generate_sas_url`, src/app.py lines 66-75) -/

/-- Modelled from the spec (section 4.1): the external Azure SDK call
`generate_blob_sas` (not part of src/) returns a read-only access token
that embeds the expiry instant it is given and a signature computed from
the account name, container, blob name and secret account key. The
signature internals are opaque; we model the token as a record of the
permission, the embedded expiry, and a signature string over the inputs. -/
structure SasToken where
  permission : String
  expiry : Nat
  signature : String
deriving DecidableEq

/-- Model of the `generate_blob_sas(...)` call in src/app.py lines 67-74:
read permission, the caller-supplied expiry instant, and a signature over
account name, container, blob name and account key. -/
def generate_blob_sas (cfg : Config) (container blob_name : String) (expiry : Nat) : SasToken :=
  ⟨"r", expiry,
    cfg.account_name ++ "/" ++ container ++ "/" ++ blob_name ++ "#"
      ++ cfg.account_key ++ "#" ++ toString expiry⟩

/-- Query-string rendering of a SAS token (the `{sas_token}` part of the
URL built on src/app.py line 75). -/
def sasTokenString (t : SasToken) : String :=
  "sp=" ++ t.permission ++ "&se=" ++ toString t.expiry ++ "&sig=" ++ t.signature

/-- The base URL of a blob,
`https://{account_name}.blob.core.windows.net/{container}/{blob_name}`
(src/app.py lines 61 and 75). -/
def blob_base_url (cfg : Config) (container blob_name : String) : String :=
  "https://" ++ cfg.account_name ++ ".blob.core.windows.net/" ++ container ++ "/" ++ blob_name

/-- `timedelta(hours=h)` measured in seconds. -/
def hoursToSeconds (h : Nat) : Nat := h * 3600

/-- `generate_sas_url` (src/app.py lines 66-75): sign the blob at
`now + expiry_hours` (the Python default argument `expiry_hours=24` is
passed explicitly by this embedding; every call site in src/app.py uses
the default) and append the token to the base blob URL. -/
def generate_sas_url (cfg : Config) (now : Nat) (container blob_name : String)
    (expiry_hours : Nat) : String :=
  blob_base_url cfg container blob_name ++ "?"
    ++ sasTokenString (generate_blob_sas cfg container blob_name (now + hoursToSeconds expiry_hours))

/-! ### Effects and upstream services -/

/-- An externally visible side effect of a request handler: an HTTP GET of
a blob (via its signed URL), identified by container and blob name, or a
`send_message` on the order queue. -/
inductive Effect where
  | blobGet (container : String) (blob_name : String)
  | queueSend (queue : String) (msg : OrderMsg)
deriving DecidableEq

/-- Results the external services hand back during one request:
`productJson` is the outcome of GET `product.json` followed by
`raise_for_status()` and JSON parsing (src/app.py lines 89-91),
`htmlBlob b` the outcome of GET of HTML blob `b` followed by
`raise_for_status()` (lines 81-83), and `queueSend m` the outcome of
`queue_client.send_message` for payload `m` (line 114) — on success the
message is appended to the queue, on failure nothing is. `Except.error`
is the raised exception. -/
structure Upstream where
  productJson : Except Unit (List Product)
  htmlBlob : String → Except Unit String
  queueSend : OrderMsg → Except Unit Unit

/-- The body of an HTTP response: plain text, or the result of
`render_template_string` — modelled from the spec (section 6, templating
mechanism treated as an opaque capability): the pair of the fetched
template text and the data context passed to it. -/
inductive Body where
  | text (s : String)
  | renderedProducts (template : String) (products : List Product)
  | renderedProduct (template : String) (product : Product)
deriving DecidableEq

/-- An HTTP response: status code and body. -/
structure HttpResponse where
  status : Nat
  body : Body
deriving DecidableEq

/-! ### Catalog loading (`fetch_products`, src/app.py lines 86-96) -/

/-- Python `s.split(sep)` for a single-character separator: split the
character list at every occurrence of `sep`; the result is never empty
(`"".split("/")` is `[""]`). -/
def splitOnChar (sep : Char) : List Char → List (List Char)
  | [] => [[]]
  | c :: rest =>
      match splitOnChar sep rest with
      | [] => if c == sep then [[], [c]] else [[c]]
      | h :: t => if c == sep then [] :: h :: t else (c :: h) :: t

/-- `p.get("image_url", "").split("/")[-1]` (src/app.py line 94): the last
`/`-separated component of the stored path (Python `"".split("/")` is
`[""]`, so an absent or empty path yields the empty filename). -/
def lastComponent (s : String) : String :=
  String.mk ((splitOnChar '/' s.data).getLastD [])

/-- The per-record rewrite of src/app.py lines 93-95: replace `image_url`
with a fresh signed URL for the image container built from the last path
component of the stored value; every other field is untouched. -/
def rewrite_image (cfg : Config) (now : Nat) (p : Product) : Product :=
  { p with image_url? := some (generate_sas_url cfg now cfg.image_container
      (lastComponent (p.image_url?.getD "")) 24) }

/-- `fetch_products` (src/app.py lines 86-96): fetch and parse
`product.json`, then rewrite each record's `image_url`. An upstream
failure propagates as the raised exception. -/
def fetch_products (cfg : Config) (now : Nat) (up : Upstream) : Except Unit (List Product) :=
  match up.productJson with
  | .error e => .error e
  | .ok items => .ok (items.map (rewrite_image cfg now))

/-- The effect `fetch_products` performs: one GET of `product.json` from
the product container (attempted even when it fails). -/
def fetch_products_effects (cfg : Config) : List Effect :=
  [Effect.blobGet cfg.product_container "product.json"]

/-- The effect of `fetch_html_from_blob` (src/app.py lines 78-83): one GET
of the named blob from the HTML container. -/
def fetch_html_effects (cfg : Config) (blob_name : String) : List Effect :=
  [Effect.blobGet cfg.html_container blob_name]

/-! ### Order submission (`enqueue_order`, src/app.py lines 99-115) -/

/-- `enqueue_order` (src/app.py lines 99-115): normalize the price from
`product.get("price", "")`, then build the payload with `product["id"]`
and `product["name"]` — a `KeyError` (modelled by `Except.error`) if
either key is absent — and send it to the order queue with
`queue_client.send_message` (line 114), whose own failure also raises and
propagates to the caller (spec sections 4.4 and 7e). -/
def enqueue_order (_cfg : Config) (up : Upstream) (p : Product) : Except Unit OrderMsg :=
  let price_int := normalize_price (p.price?.getD "")
  match p.id?, p.name? with
  | some i, some n =>
      match up.queueSend ⟨i, n, price_int⟩ with
      | .ok _ => .ok ⟨i, n, price_int⟩
      | .error e => .error e
  | _, _ => .error ()

/-- The queue effect of `enqueue_order`: one message appended when the
payload was built and `send_message` succeeded, none when either step
raised. -/
def enqueue_order_effects (cfg : Config) (up : Upstream) (p : Product) : List Effect :=
  match enqueue_order cfg up p with
  | .ok m => [Effect.queueSend cfg.queue_name m]
  | .error _ => []

/-! ### Request handlers (src/app.py lines 118-156) -/

/-- `next((p for p in products if p["id"] == product_id), None)`
(src/app.py line 140): scan the list in order; a record without an `"id"`
key raises `KeyError` (`Except.error`) the moment it is examined;
otherwise the first record whose id equals `product_id` is returned, or
`none` when the scan exhausts the list. -/
def findProduct : List Product → Int → Except Unit (Option Product)
  | [], _ => .ok none
  | p :: ps, product_id =>
      match p.id? with
      | none => .error ()
      | some i => if i = product_id then .ok (some p) else findProduct ps product_id

/-- The body of the catch-all 500 response of `buy` (src/app.py line 150);
the interpolated exception text is abstracted. -/
def buy_error_body : Body := Body.text "500 in /buy"

/-- The body of the catch-all 500 response of `home` (src/app.py line
133); the interpolated exception text is abstracted. -/
def home_error_body : Body := Body.text "500 in home()"

/-- The `buy` handler for `GET /buy/<int:product_id>` (src/app.py lines
136-150): fetch the catalog, look the product up by id, 404 when absent,
otherwise enqueue the order, fetch `delivery.html` and render it with the
product; any raised exception is caught and turned into a 500 response.
Returns the response together with the ordered effects performed. -/
def buy (cfg : Config) (now : Nat) (up : Upstream) (product_id : Int) :
    HttpResponse × List Effect :=
  match fetch_products cfg now up with
  | .error _ => (⟨500, buy_error_body⟩, fetch_products_effects cfg)
  | .ok products =>
      match findProduct products product_id with
      | .error _ => (⟨500, buy_error_body⟩, fetch_products_effects cfg)
      | .ok none => (⟨404, Body.text "Product not found"⟩, fetch_products_effects cfg)
      | .ok (some p) =>
          match enqueue_order cfg up p with
          | .error _ => (⟨500, buy_error_body⟩, fetch_products_effects cfg)
          | .ok _ =>
              match up.htmlBlob "delivery.html" with
              | .error _ => (⟨500, buy_error_body⟩,
                  fetch_products_effects cfg ++ enqueue_order_effects cfg up p
                    ++ fetch_html_effects cfg "delivery.html")
              | .ok html => (⟨200, Body.renderedProduct html p⟩,
                  fetch_products_effects cfg ++ enqueue_order_effects cfg up p
                    ++ fetch_html_effects cfg "delivery.html")

/-- Python `str.lower()` on the ASCII fragment: lowercase each character. -/
def pyLower (s : String) : String :=
  String.mk (s.data.map Char.toLower)

/-- Python `str.strip()` whitespace test on the ASCII fragment: space,
tab, newline, carriage return, vertical tab, form feed. -/
def pyIsSpace (c : Char) : Bool :=
  c == ' ' || c == '\t' || c == '\n' || c == '\r' || c == '\x0b' || c == '\x0c'

/-- Python `str.strip()`: drop leading and trailing whitespace. -/
def pyStrip (s : String) : String :=
  String.mk (((s.data.dropWhile pyIsSpace).reverse.dropWhile pyIsSpace).reverse)

/-- Decides whether `needle` occurs at the head of `hay` (list prefix). -/
def subAt : List Char → List Char → Bool
  | [], _ => true
  | _ :: _, [] => false
  | a :: as, b :: bs => a == b && subAt as bs

/-- Python `needle in hay` substring test on character lists. -/
def containsSub (needle : List Char) : List Char → Bool
  | [] => needle.isEmpty
  | b :: bs => subAt needle (b :: bs) || containsSub needle bs

/-- The filter predicate of src/app.py lines 124-127:
`q in p.get("name", "").lower() or q in p.get("category", "").lower()`. -/
def matchesQuery (q : String) (p : Product) : Bool :=
  containsSub q.data (pyLower (p.name?.getD "")).data
    || containsSub q.data (pyLower (p.category?.getD "")).data

/-- The `home` handler for `GET /` (src/app.py lines 118-133): read the
query parameter `q` (absent reads as `""`), lowercase and strip it, fetch
the catalog, filter it when `q` is non-empty, fetch `home.html` and render
it with the product list; any raised exception becomes a 500 response. -/
def home (cfg : Config) (now : Nat) (up : Upstream) (qArg : Option String) :
    HttpResponse × List Effect :=
  let q := pyStrip (pyLower (qArg.getD ""))
  match fetch_products cfg now up with
  | .error _ => (⟨500, home_error_body⟩, fetch_products_effects cfg)
  | .ok products =>
      let filtered := if q.data.isEmpty then products else products.filter (matchesQuery q)
      match up.htmlBlob "home.html" with
      | .error _ => (⟨500, home_error_body⟩,
          fetch_products_effects cfg ++ fetch_html_effects cfg "home.html")
      | .ok html => (⟨200, Body.renderedProducts html filtered⟩,
          fetch_products_effects cfg ++ fetch_html_effects cfg "home.html")

/-- The `health` handler for `GET /health` (src/app.py lines 153-156):
a fixed `("OK", 200)` response touching neither the blob store nor the
queue. -/
def health : HttpResponse × List Effect :=
  (⟨200, Body.text "OK"⟩, [])

/-! ### Startup environment check (src/app.py lines 38-49) -/

/-- The `required_env` list of src/app.py lines 38-46. -/
def required_env : List String :=
  ["STORAGE_ACCOUNT_NAME", "STORAGE_ACCOUNT_KEY", "BLOB_CONTAINER_HTML",
   "BLOB_CONTAINER_IMAGES", "BLOB_CONTAINER_PRODUCTS", "AzureWebJobsStorage",
   "ORDER_QUEUE"]

/-- The module-level startup check of src/app.py lines 47-49: collect the
required keys absent from the environment (`key not in os.environ`; a
present-but-empty value counts as present) and raise `RuntimeError` when
any is missing, so the process never starts serving; otherwise startup
proceeds. -/
def startup_check (env : String → Option String) : Except String Unit :=
  let missing := required_env.filter (fun key => (env key).isNone)
  if missing.isEmpty then .ok ()
  else .error ("Missing required environment variables: " ++ String.intercalate ", " missing)

/-- Recognizer for queue-send effects, used to count the queue messages a
handler produced. -/
def isQueueSend : Effect → Bool
  | .queueSend _ _ => true
  | .blobGet _ _ => false

/-- The specification's case-insensitive containment: `q` (already
lowercased) occurs as a substring of the lowercased field. -/
def ContainsCI (q s : String) : Prop :=
  ∃ pre post, (pyLower s).data = pre ++ q.data ++ post

/-! ### Concrete fixtures used by the witness theorems -/

/-- A concrete configuration. -/
def exCfg : Config := ⟨"acct", "key", "html", "prod", "img", "orders", "conn"⟩

/-- A concrete product record matching the query `"shirt"`. -/
def exItem : Product :=
  ⟨some 1, some "Shirt", some "apparel", some "$12.00", some "images/shirt.png"⟩

/-- A second concrete product record, not matching `"shirt"`. -/
def exItem2 : Product :=
  ⟨some 2, some "Mug", some "kitchen", some "$5", some "images/mug.png"⟩

/-- A concrete product record with no `"id"` key. -/
def exItemNoId : Product := ⟨none, some "Ghost", none, some "$3", none⟩

/-- Healthy upstream services over a two-product catalog. -/
def exUp : Upstream := ⟨.ok [exItem, exItem2], fun _ => .ok "TPL", fun _ => .ok ()⟩

/-- Healthy upstream services over a catalog whose only record lacks an
`"id"` key. -/
def exUpNoId : Upstream := ⟨.ok [exItemNoId], fun _ => .ok "TPL", fun _ => .ok ()⟩

/-- C1: order price normalization strips every non-digit character from the
string form of the price and parses the remaining digit string as a
non-negative integer, with an empty remainder normalizing to zero; in
particular `"$12.00"` normalizes to `1200`, `""` to `0`, `"12"` to `12`,
and `"abc"` to `0`. -/
theorem C1_normalize_price :
    (∀ s : String, normalize_price s = specNormalizePrice s)
      ∧ normalize_price "$12.00" = 1200
      ∧ normalize_price "" = 0
      ∧ normalize_price "12" = 12
      ∧ normalize_price "abc" = 0 := by
  refine ⟨?_, by decide, by decide, by decide, by decide⟩
  intro s
  unfold normalize_price specNormalizePrice strip_non_digits
  by_cases h : (s.data.filter Char.isDigit).isEmpty
  · rw [List.isEmpty_iff] at h
    simp [h, Nat.ofDigits]
  · simp only [h, if_neg, Bool.false_eq_true, not_false_eq_true, if_false]
    exact pyInt_eq_ofDigits _

/-- C6: for every container, blob name and expiry window, the generated
signed URL is the base blob URL followed by the token, the token's
embedded expiry timestamp is exactly the generation time plus the expiry
window, and the default window of 24 hours is 86400 seconds. -/
theorem C6_sas_url_expiry (cfg : Config) (now : Nat) (container blob_name : String)
    (expiry_hours : Nat) :
    generate_sas_url cfg now container blob_name expiry_hours
        = blob_base_url cfg container blob_name ++ "?"
          ++ sasTokenString
              (generate_blob_sas cfg container blob_name (now + hoursToSeconds expiry_hours))
      ∧ (generate_blob_sas cfg container blob_name (now + hoursToSeconds expiry_hours)).expiry
          = now + expiry_hours * 3600
      ∧ hoursToSeconds 24 = 86400 :=
  ⟨rfl, rfl, rfl⟩

/-- C8: the health handler returns status 200 with body `"OK"` and
performs no effects: it calls neither the blob store nor the queue. -/
theorem C8_health_ok :
    health.1.status = 200 ∧ health.1.body = Body.text "OK" ∧ health.2 = [] :=
  ⟨rfl, rfl, rfl⟩

/-- C5: a successfully loaded catalog rewrites every record's `image_url`
to a signed URL for the image container built from the last path component
of the stored value (never the raw stored path), and a missing or empty
stored `image_url` does not fail the load but yields a signed URL with an
empty blob filename. -/
theorem C5_image_url_signed (cfg : Config) (now : Nat) (up : Upstream)
    (items : List Product) (hup : up.productJson = .ok items) :
    fetch_products cfg now up = .ok (items.map (rewrite_image cfg now))
      ∧ (∀ p : Product,
          (rewrite_image cfg now p).image_url?
            = some (generate_sas_url cfg now cfg.image_container
                (lastComponent (p.image_url?.getD "")) 24))
      ∧ (∀ p : Product, p.image_url? = none ∨ p.image_url? = some "" →
          (rewrite_image cfg now p).image_url?
            = some (generate_sas_url cfg now cfg.image_container "" 24))
      ∧ lastComponent "" = "" := by
  refine ⟨by simp [fetch_products, hup], fun p => rfl, ?_, by decide⟩
  intro p hp
  rcases hp with h | h <;> simp [rewrite_image, h, lastComponent, splitOnChar]

theorem C5_image_url_signed_witness :
    (Upstream.mk (.ok [⟨some 1, some "Shirt", some "apparel", some "$12.00",
        some "images/shirt.png"⟩]) (fun _ => .ok "T") (fun _ => .ok ())).productJson
      = .ok [⟨some 1, some "Shirt", some "apparel", some "$12.00", some "images/shirt.png"⟩]
    ∧ fetch_products ⟨"acct", "key", "html", "prod", "img", "orders", "conn"⟩ 1000
        (Upstream.mk (.ok [⟨some 1, some "Shirt", some "apparel", some "$12.00",
          some "images/shirt.png"⟩]) (fun _ => .ok "T") (fun _ => .ok ()))
      = .ok [⟨some 1, some "Shirt", some "apparel", some "$12.00",
          some (generate_sas_url ⟨"acct", "key", "html", "prod", "img", "orders", "conn"⟩
            1000 "img" "shirt.png" 24)⟩] := by
  refine ⟨rfl, ?_⟩
  have h := C5_image_url_signed ⟨"acct", "key", "html", "prod", "img", "orders", "conn"⟩ 1000
    (Upstream.mk (.ok [⟨some 1, some "Shirt", some "apparel", some "$12.00",
      some "images/shirt.png"⟩]) (fun _ => .ok "T") (fun _ => .ok ()))
    [⟨some 1, some "Shirt", some "apparel", some "$12.00", some "images/shirt.png"⟩] rfl
  exact h.1.trans (congrArg Except.ok (by decide))

/-- C10: catalog loading preserves the length and order of the product
list, and for every record leaves the `id`, `name`, `category` and `price`
fields unchanged; only `image_url` is rewritten. -/
theorem C10_catalog_frame (cfg : Config) (now : Nat) (up : Upstream)
    (items : List Product) (hup : up.productJson = .ok items) :
    fetch_products cfg now up = .ok (items.map (rewrite_image cfg now))
      ∧ (items.map (rewrite_image cfg now)).length = items.length
      ∧ (items.map (rewrite_image cfg now)).map Product.id? = items.map Product.id?
      ∧ (items.map (rewrite_image cfg now)).map Product.name? = items.map Product.name?
      ∧ (items.map (rewrite_image cfg now)).map Product.category?
          = items.map Product.category?
      ∧ (items.map (rewrite_image cfg now)).map Product.price? = items.map Product.price? := by
  refine ⟨by simp [fetch_products, hup], by simp, ?_, ?_, ?_, ?_⟩ <;>
    · rw [List.map_map]
      exact List.map_congr_left (fun p _ => rfl)

theorem C10_catalog_frame_witness :
    (Upstream.mk (.ok [⟨some 1, some "A", none, some "$1", some "a/b.png"⟩,
        ⟨some 2, some "B", some "c", none, none⟩]) (fun _ => .ok "T") (fun _ => .ok ())).productJson
      = .ok [⟨some 1, some "A", none, some "$1", some "a/b.png"⟩,
        ⟨some 2, some "B", some "c", none, none⟩]
    ∧ ([⟨some 1, some "A", none, some "$1", some "a/b.png"⟩,
        ⟨some 2, some "B", some "c", none, none⟩].map
          (rewrite_image ⟨"a", "k", "h", "p", "i", "q", "c"⟩ 7)).map Product.id?
      = [some 1, some 2] := by
  refine ⟨rfl, ?_⟩
  have h := C10_catalog_frame ⟨"a", "k", "h", "p", "i", "q", "c"⟩ 7
    (Upstream.mk (.ok [⟨some 1, some "A", none, some "$1", some "a/b.png"⟩,
      ⟨some 2, some "B", some "c", none, none⟩]) (fun _ => .ok "T") (fun _ => .ok ()))
    [⟨some 1, some "A", none, some "$1", some "a/b.png"⟩,
      ⟨some 2, some "B", some "c", none, none⟩] rfl
  exact h.2.2.1.trans (by decide)

/-- C7: if any required configuration key is absent from the environment
at startup, the startup check raises (the process refuses to start, so the
service accepts no request); if all seven are present, startup proceeds. -/
theorem C7_startup_config (env : String → Option String) :
    ((∃ key ∈ required_env, env key = none) → ∃ msg, startup_check env = .error msg)
      ∧ ((∀ key ∈ required_env, (env key).isSome) → startup_check env = .ok ()) := by
  constructor
  · rintro ⟨key, hkey, hnone⟩
    have hmem : key ∈ required_env.filter (fun k => (env k).isNone) :=
      List.mem_filter.mpr ⟨hkey, by simp [hnone]⟩
    have hne : (required_env.filter (fun k => (env k).isNone)).isEmpty = false := by
      cases hfe : required_env.filter (fun k => (env k).isNone) with
      | nil => rw [hfe] at hmem; exact absurd hmem (List.not_mem_nil key)
      | cons a l => rfl
    unfold startup_check
    simp only [hne, Bool.false_eq_true, if_false]
    exact ⟨_, rfl⟩
  · intro hall
    have hnil : required_env.filter (fun k => (env k).isNone) = [] := by
      rw [List.filter_eq_nil_iff]
      intro k hk
      simp [Option.isNone_iff_eq_none]
      exact Option.isSome_iff_ne_none.mp (hall k hk)
    simp [startup_check, hnil]

theorem C7_startup_config_witness :
    (∃ msg, startup_check (fun _ => none) = .error msg)
      ∧ startup_check (fun _ => some "v") = .ok () := by
  constructor
  · exact (C7_startup_config (fun _ => none)).1 ⟨"ORDER_QUEUE", by decide, rfl⟩
  · exact (C7_startup_config (fun _ => some "v")).2 (fun k _ => rfl)

lemma findProduct_id (ps : List Product) (pid : Int) (p : Product)
    (h : findProduct ps pid = .ok (some p)) : p.id? = some pid := by
  induction ps with
  | nil => simp [findProduct] at h
  | cons a t ih =>
      cases ha : a.id? with
      | none => simp [findProduct, ha] at h
      | some i =>
          by_cases hi : i = pid
          · simp [findProduct, ha, hi] at h
            rw [← h, ha, hi]
          · simp [findProduct, ha, hi] at h
            exact ih h

lemma findProduct_keyError (pre post : List Product) (r : Product) (pid : Int)
    (hr : r.id? = none) (hpre : ∀ x ∈ pre, ∃ i, x.id? = some i ∧ i ≠ pid) :
    findProduct (pre ++ r :: post) pid = .error () := by
  induction pre with
  | nil => simp [findProduct, hr]
  | cons a t ih =>
      obtain ⟨i, hai, hne⟩ := hpre a (List.mem_cons_self a t)
      simp [findProduct, hai, hne]
      exact ih (fun x hx => hpre x (List.mem_cons_of_mem a hx))

/-- C2: a purchase request for an id present in the loaded catalog, whose
`send_message` call succeeds, sends exactly one queue message, whose
payload object is the product's id and name with the normalized integer
price, and returns status 200 with the confirmation template rendered for
that product (a failing `send_message` instead raises and is surfaced as
500 with no message appended). -/
theorem C2_buy_present (cfg : Config) (now : Nat) (up : Upstream) (product_id : Int)
    (items : List Product) (p : Product) (n html : String)
    (hup : up.productJson = .ok items)
    (hfind : findProduct (items.map (rewrite_image cfg now)) product_id = .ok (some p))
    (hname : p.name? = some n)
    (hsend : up.queueSend ⟨product_id, n, normalize_price (p.price?.getD "")⟩ = .ok ())
    (hhtml : up.htmlBlob "delivery.html" = .ok html) :
    buy cfg now up product_id
        = (⟨200, Body.renderedProduct html p⟩,
           [Effect.blobGet cfg.product_container "product.json",
            Effect.queueSend cfg.queue_name
              ⟨product_id, n, normalize_price (p.price?.getD "")⟩,
            Effect.blobGet cfg.html_container "delivery.html"])
      ∧ (buy cfg now up product_id).2.filter isQueueSend
          = [Effect.queueSend cfg.queue_name
              ⟨product_id, n, normalize_price (p.price?.getD "")⟩] := by
  have hid : p.id? = some product_id := findProduct_id _ _ _ hfind
  have hfp : fetch_products cfg now up = .ok (items.map (rewrite_image cfg now)) := by
    simp [fetch_products, hup]
  have henq : enqueue_order cfg up p
      = .ok ⟨product_id, n, normalize_price (p.price?.getD "")⟩ := by
    simp [enqueue_order, hid, hname, hsend]
  have hmain : buy cfg now up product_id
      = (⟨200, Body.renderedProduct html p⟩,
         [Effect.blobGet cfg.product_container "product.json",
          Effect.queueSend cfg.queue_name
            ⟨product_id, n, normalize_price (p.price?.getD "")⟩,
          Effect.blobGet cfg.html_container "delivery.html"]) := by
    simp [buy, hfp, hfind, henq, hhtml, enqueue_order_effects,
      fetch_products_effects, fetch_html_effects]
  refine ⟨hmain, ?_⟩
  rw [hmain]
  simp [isQueueSend]

theorem C2_buy_present_witness :
    buy exCfg 1000 exUp 1
        = (⟨200, Body.renderedProduct "TPL" (rewrite_image exCfg 1000 exItem)⟩,
           [Effect.blobGet exCfg.product_container "product.json",
            Effect.queueSend exCfg.queue_name
              ⟨1, "Shirt", normalize_price ((rewrite_image exCfg 1000 exItem).price?.getD "")⟩,
            Effect.blobGet exCfg.html_container "delivery.html"])
      ∧ (buy exCfg 1000 exUp 1).2.filter isQueueSend
          = [Effect.queueSend exCfg.queue_name
              ⟨1, "Shirt", normalize_price ((rewrite_image exCfg 1000 exItem).price?.getD "")⟩] :=
  C2_buy_present exCfg 1000 exUp 1 [exItem, exItem2] (rewrite_image exCfg 1000 exItem)
    "Shirt" "TPL" rfl rfl rfl rfl rfl

/-- C3: a purchase request for an id absent from the loaded catalog
returns status 404 and performs no side effects beyond the catalog fetch:
no queue message is sent and the confirmation template is not fetched. -/
theorem C3_buy_absent (cfg : Config) (now : Nat) (up : Upstream) (product_id : Int)
    (items : List Product)
    (hup : up.productJson = .ok items)
    (hfind : findProduct (items.map (rewrite_image cfg now)) product_id = .ok none) :
    buy cfg now up product_id
        = (⟨404, Body.text "Product not found"⟩,
           [Effect.blobGet cfg.product_container "product.json"])
      ∧ (∀ e ∈ (buy cfg now up product_id).2, isQueueSend e = false)
      ∧ Effect.blobGet cfg.html_container "delivery.html"
          ∉ (buy cfg now up product_id).2 := by
  have hfp : fetch_products cfg now up = .ok (items.map (rewrite_image cfg now)) := by
    simp [fetch_products, hup]
  have hmain : buy cfg now up product_id
      = (⟨404, Body.text "Product not found"⟩,
         [Effect.blobGet cfg.product_container "product.json"]) := by
    simp [buy, hfp, hfind, fetch_products_effects]
  refine ⟨hmain, ?_, ?_⟩
  · rw [hmain]
    intro e he
    rw [List.mem_singleton] at he
    rw [he]
    rfl
  · rw [hmain]
    intro hmem
    rw [List.mem_singleton] at hmem
    injection hmem with hc hb
    exact absurd hb (by decide)

theorem C3_buy_absent_witness :
    buy exCfg 1000 exUp 99
        = (⟨404, Body.text "Product not found"⟩,
           [Effect.blobGet exCfg.product_container "product.json"])
      ∧ (∀ e ∈ (buy exCfg 1000 exUp 99).2, isQueueSend e = false)
      ∧ Effect.blobGet exCfg.html_container "delivery.html"
          ∉ (buy exCfg 1000 exUp 99).2 :=
  C3_buy_absent exCfg 1000 exUp 99 [exItem, exItem2] rfl rfl

/-- C9: when a record of the loaded catalog lacks an `"id"` key, a
purchase request whose scan reaches that record (no earlier record
matches) raises a `KeyError` that the handler boundary converts to a 500
response — the record is not skipped, no 404 is returned, and no queue
message is sent. -/
theorem C9_missing_id_500 (cfg : Config) (now : Nat) (up : Upstream) (product_id : Int)
    (items pre post : List Product) (r : Product)
    (hup : up.productJson = .ok items)
    (hsplit : items.map (rewrite_image cfg now) = pre ++ r :: post)
    (hr : r.id? = none)
    (hpre : ∀ x ∈ pre, ∃ i, x.id? = some i ∧ i ≠ product_id) :
    buy cfg now up product_id = (⟨500, buy_error_body⟩, fetch_products_effects cfg)
      ∧ (buy cfg now up product_id).1.status = 500
      ∧ (∀ e ∈ (buy cfg now up product_id).2, isQueueSend e = false) := by
  have hfp : fetch_products cfg now up = .ok (items.map (rewrite_image cfg now)) := by
    simp [fetch_products, hup]
  have hfind : findProduct (items.map (rewrite_image cfg now)) product_id = .error () := by
    rw [hsplit]
    exact findProduct_keyError pre post r product_id hr hpre
  have hmain : buy cfg now up product_id
      = (⟨500, buy_error_body⟩, fetch_products_effects cfg) := by
    simp [buy, hfp, hfind]
  refine ⟨hmain, by rw [hmain], ?_⟩
  rw [hmain]
  intro e he
  rw [fetch_products_effects, List.mem_singleton] at he
  rw [he]
  rfl

theorem C9_missing_id_500_witness :
    buy exCfg 1000 exUpNoId 1 = (⟨500, buy_error_body⟩, fetch_products_effects exCfg)
      ∧ (buy exCfg 1000 exUpNoId 1).1.status = 500
      ∧ (∀ e ∈ (buy exCfg 1000 exUpNoId 1).2, isQueueSend e = false) :=
  C9_missing_id_500 exCfg 1000 exUpNoId 1 [exItemNoId] [] []
    (rewrite_image exCfg 1000 exItemNoId) rfl rfl rfl
    (fun x hx => absurd hx (List.not_mem_nil x))

lemma subAt_iff (n h : List Char) : subAt n h = true ↔ ∃ t, h = n ++ t := by
  induction n generalizing h with
  | nil => simp [subAt]
  | cons a as ih =>
      cases h with
      | nil => simp [subAt]
      | cons b bs =>
          simp only [subAt, Bool.and_eq_true, beq_iff_eq, ih, List.cons_append]
          constructor
          · rintro ⟨rfl, t, rfl⟩
            exact ⟨t, rfl⟩
          · rintro ⟨t, ht⟩
            injection ht with h1 h2
            exact ⟨h1.symm, t, h2⟩

lemma containsSub_iff (n h : List Char) :
    containsSub n h = true ↔ ∃ pre post, h = pre ++ (n ++ post) := by
  induction h with
  | nil =>
      simp only [containsSub, List.isEmpty_iff]
      constructor
      · rintro rfl
        exact ⟨[], [], rfl⟩
      · rintro ⟨pre, post, hp⟩
        rcases List.append_eq_nil.mp hp.symm with ⟨-, h2⟩
        exact (List.append_eq_nil.mp h2).1
  | cons b bs ih =>
      simp only [containsSub, Bool.or_eq_true, ih, subAt_iff]
      constructor
      · rintro (⟨t, ht⟩ | ⟨pre, post, hp⟩)
        · exact ⟨[], t, by simpa using ht⟩
        · exact ⟨b :: pre, post, by simp [hp]⟩
      · rintro ⟨pre, post, hp⟩
        cases pre with
        | nil => exact Or.inl ⟨post, by simpa using hp⟩
        | cons x xs =>
            refine Or.inr ?_
            injection hp with h1 h2
            exact ⟨xs, post, h2⟩

/-- C4: the catalog handler lowercases and strips the query parameter;
when the result is empty or the parameter is absent it renders the full
catalog in source order, and when it is non-empty it renders exactly those
products whose name or category contains the query case-insensitively,
in source order (the filtered list is a sublist of the catalog). -/
theorem C4_home_filter (cfg : Config) (now : Nat) (up : Upstream) (qArg : Option String)
    (items : List Product) (html : String)
    (hup : up.productJson = .ok items)
    (hhtml : up.htmlBlob "home.html" = .ok html) :
    (pyStrip (pyLower (qArg.getD "")) = "" →
        home cfg now up qArg
          = (⟨200, Body.renderedProducts html (items.map (rewrite_image cfg now))⟩,
             [Effect.blobGet cfg.product_container "product.json",
              Effect.blobGet cfg.html_container "home.html"]))
      ∧ (pyStrip (pyLower (qArg.getD "")) ≠ "" →
          home cfg now up qArg
              = (⟨200, Body.renderedProducts html
                  ((items.map (rewrite_image cfg now)).filter
                    (matchesQuery (pyStrip (pyLower (qArg.getD "")))))⟩,
                 [Effect.blobGet cfg.product_container "product.json",
                  Effect.blobGet cfg.html_container "home.html"])
            ∧ ((items.map (rewrite_image cfg now)).filter
                  (matchesQuery (pyStrip (pyLower (qArg.getD ""))))).Sublist
                (items.map (rewrite_image cfg now))
            ∧ (∀ p : Product,
                p ∈ (items.map (rewrite_image cfg now)).filter
                    (matchesQuery (pyStrip (pyLower (qArg.getD ""))))
                  ↔ p ∈ items.map (rewrite_image cfg now)
                    ∧ (ContainsCI (pyStrip (pyLower (qArg.getD ""))) (p.name?.getD "")
                      ∨ ContainsCI (pyStrip (pyLower (qArg.getD "")))
                          (p.category?.getD "")))) := by
  have hfp : fetch_products cfg now up = .ok (items.map (rewrite_image cfg now)) := by
    simp [fetch_products, hup]
  constructor
  · intro hq0
    simp [home, hfp, hhtml, hq0, fetch_products_effects, fetch_html_effects]
  · intro hqne
    have hbool : (pyStrip (pyLower (qArg.getD ""))).data.isEmpty = false := by
      cases hd : (pyStrip (pyLower (qArg.getD ""))).data with
      | nil => exact absurd (String.ext (by rw [hd])) hqne
      | cons c cs => rfl
    refine ⟨?_, List.filter_sublist _, ?_⟩
    · simp [home, hfp, hhtml, hbool, fetch_products_effects, fetch_html_effects]
    · intro p
      simp only [List.mem_filter, matchesQuery, Bool.or_eq_true, containsSub_iff,
        ContainsCI, List.append_assoc]

theorem C4_home_filter_witness :
    home exCfg 1000 exUp (some " SHIRT ")
        = (⟨200, Body.renderedProducts "TPL"
            (([exItem, exItem2].map (rewrite_image exCfg 1000)).filter
              (matchesQuery (pyStrip (pyLower " SHIRT "))))⟩,
           [Effect.blobGet exCfg.product_container "product.json",
            Effect.blobGet exCfg.html_container "home.html"])
      ∧ ([exItem, exItem2].map (rewrite_image exCfg 1000)).filter
            (matchesQuery (pyStrip (pyLower " SHIRT ")))
          = [rewrite_image exCfg 1000 exItem]
      ∧ home exCfg 1000 exUp none
          = (⟨200, Body.renderedProducts "TPL"
              ([exItem, exItem2].map (rewrite_image exCfg 1000))⟩,
             [Effect.blobGet exCfg.product_container "product.json",
              Effect.blobGet exCfg.html_container "home.html"]) := by
  refine ⟨?_, by decide, ?_⟩
  · exact ((C4_home_filter exCfg 1000 exUp (some " SHIRT ") [exItem, exItem2] "TPL"
      rfl rfl).2 (by decide)).1
  · exact (C4_home_filter exCfg 1000 exUp none [exItem, exItem2] "TPL" rfl rfl).1 (by decide)

end Storefront
